import Mathlib

/-!
Verification of the Brambl-JS `Requests` module (src/Requests.js), a JSON-RPC
client for the Bifrost protocol.  JavaScript values that flow through the
module are modelled by `JsValue`; each public operation of the catalog is
translated function-by-function, keeping the source order of the validation
checks and the exact thrown messages.
-/

/-- A JavaScript value, as far as the request module manipulates them:
`undefined`, `null`, booleans, (integer) numbers, strings, arrays and plain
objects.  Object fields are kept in insertion order, without duplicate keys. -/
inductive JsValue where
  | undefined : JsValue
  | nullV : JsValue
  | bool : Bool → JsValue
  | num : Int → JsValue
  | str : String → JsValue
  | arr : List JsValue → JsValue
  | obj : List (String × JsValue) → JsValue

/-- JavaScript truthiness of a value (`NaN` is not modelled; the module never
produces one). -/
def truthy : JsValue → Bool
  | .undefined => false
  | .nullV => false
  | .bool b => b
  | .num n => n != 0
  | .str s => s ≠ ""
  | .arr _ => true
  | .obj _ => true

/-- Property read `v.k` on a value that is neither `undefined` nor `null`:
yields the field of an object, `undefined` otherwise (as for JS primitives). -/
def getField : JsValue → String → JsValue
  | .obj fs, k => ((fs.find? (fun p => p.1 == k)).map Prod.snd).getD .undefined
  | _, _ => .undefined

/-- Whether an object value carries a field named `k` at all (present even if
its value is falsy). -/
def hasField (v : JsValue) (k : String) : Bool :=
  match v with
  | .obj fs => fs.any (fun p => p.1 == k)
  | _ => false

/-- `Array.isArray`. -/
def isArray : JsValue → Bool
  | .arr _ => true
  | _ => false

/-- JavaScript `a || b`. -/
def jsOr (a b : JsValue) : JsValue := if truthy a then a else b

/-- JavaScript strict equality `v === 0` against the number literal `0`:
true exactly for the number zero, false for every other value. -/
def strictEqZero : JsValue → Bool
  | .num n => n == 0
  | _ => false

/-- Object spread `{ ...v }`: copies an object shallowly, turns an array or a
string into an object of indexed entries, and yields `{}` on primitives. -/
def spreadObj : JsValue → JsValue
  | .obj fs => .obj fs
  | .arr xs => .obj ((List.range xs.length).zip xs |>.map (fun p => (toString p.1, p.2)))
  | .str s => .obj ((List.range s.length).zip s.toList |>.map
      (fun p => (toString p.1, .str (String.singleton p.2))))
  | _ => .obj []

/-- An error thrown inside the module before any network I/O happens:
a `new Error(msg)` raised by a validation check, the engine TypeError raised
by reading a property of `undefined`/`null` (we record the field name), or
the engine ReferenceError raised by reading an undeclared variable (we record
the variable name). -/
inductive ThrownError where
  | validation : String → ThrownError
  | typeError : String → ThrownError
  | refError : String → ThrownError
  deriving DecidableEq, Repr

/-- Property read `v.k` as the engine performs it: reading a property of
`undefined` or `null` throws a TypeError. -/
def getProp (v : JsValue) (k : String) : Except ThrownError JsValue :=
  match v with
  | .undefined => .error (.typeError k)
  | .nullV => .error (.typeError k)
  | _ => .ok (getField v k)

/-- The headers object built by the `Requests` constructor:
`Content-Type` and `x-api-key`. -/
structure Headers where
  contentType : String
  xApiKey : String
  deriving DecidableEq, Repr

/-- The state of a `Requests` instance: the chain provider url and the
headers object.  (`this.url` / `this.headers` in the source.) -/
structure Requests where
  url : String
  headers : Headers
  deriving DecidableEq, Repr

/-- The `Requests` constructor, with its default arguments. -/
def mkRequests (url : String := "http://localhost:9085/")
    (apiKey : String := "topl_the_world!") : Requests :=
  { url := url
    headers := { contentType := "application/json", xApiKey := apiKey } }

/-- `Requests.prototype.setUrl`: overwrites `this.url`, no validation. -/
def setUrl (self : Requests) (url : String) : Requests :=
  { self with url := url }

/-- `Requests.prototype.setApiKey`: overwrites `this.headers["x-api-key"]`,
no validation. -/
def setApiKey (self : Requests) (apiKey : String) : Requests :=
  { self with headers := { self.headers with xApiKey := apiKey } }

/-- The `routeInfo` argument of `LokiRequest`. -/
structure RouteInfo where
  route : String
  method : String
  id : JsValue

/-- The JSON-RPC envelope object built by `LokiRequest`
(`{jsonrpc, id, method, params}` in insertion order). -/
structure RpcBody where
  jsonrpc : String
  id : JsValue
  method : String
  params : List JsValue

/-- The outgoing HTTP request assembled by `LokiRequest`: target URL, HTTP
method, headers, and the envelope that is serialized as the POST body. -/
structure HttpRequest where
  url : String
  httpMethod : String
  headers : Headers
  body : RpcBody

/-- The request-building half of `LokiRequest`: envelope
`{jsonrpc: "2.0", id: routeInfo.id || "1", method: routeInfo.method,
params: [{...params}]}` posted to `self.url + routeInfo.route` with
`self.headers`. -/
def lokiRequest (routeInfo : RouteInfo) (params : JsValue) (self : Requests) :
    HttpRequest :=
  { url := self.url ++ routeInfo.route
    httpMethod := "POST"
    headers := self.headers
    body :=
      { jsonrpc := "2.0"
        id := jsOr routeInfo.id (.str "1")
        method := routeInfo.method
        params := [spreadObj params] } }

/-- String quoting as performed by `JSON.stringify` (escaping of quote and
backslash; the module never produces control characters). -/
def quoteJson (s : String) : String :=
  "\"" ++ String.join (s.toList.map
    (fun c => if c = '\"' then "\\\"" else if c = '\\' then "\\\\"
              else String.singleton c)) ++ "\""

mutual
/-- `JSON.stringify` on `JsValue` (in arrays `undefined` prints as `null`;
in objects a field with value `undefined` is omitted). -/
def jsonStringify : JsValue → String
  | .undefined => "null"
  | .nullV => "null"
  | .bool true => "true"
  | .bool false => "false"
  | .num n => toString n
  | .str s => quoteJson s
  | .arr xs => "[" ++ String.intercalate "," (itemStrings xs) ++ "]"
  | .obj fs => "\x7b" ++ String.intercalate "," (fieldStrings fs) ++ "\x7d"

/-- Serialized elements of an array. -/
def itemStrings : List JsValue → List String
  | [] => []
  | x :: xs => jsonStringify x :: itemStrings xs

/-- Serialized `"key":value` entries of an object, skipping `undefined`. -/
def fieldStrings : List (String × JsValue) → List String
  | [] => []
  | (_, .undefined) :: fs => fieldStrings fs
  | (k, v) :: fs => (quoteJson k ++ ":" ++ jsonStringify v) :: fieldStrings fs
end

/-- The envelope viewed as the JS object literal `LokiRequest` builds, in
field insertion order. -/
def bodyToJson (b : RpcBody) : JsValue :=
  .obj [("jsonrpc", .str b.jsonrpc), ("id", b.id), ("method", .str b.method),
        ("params", .arr b.params)]

/-- `JSON.stringify(body)`: the string actually sent as the POST body. -/
def serializeBody (b : RpcBody) : String :=
  jsonStringify (bodyToJson b)

/-- Outcome of running an operation up to the point of network I/O: either a
locally thrown error, or a dispatched HTTP request. -/
inductive CallOutcome where
  | thrown : ThrownError → CallOutcome
  | dispatched : HttpRequest → CallOutcome

/-- Result of a full operation call once the transport has produced a parsed
response body: a locally thrown error, the thrown response object
(`if (response.error) { throw response }`), or the resolved response
(`else { return response }`). -/
inductive OpResult where
  | err : ThrownError → OpResult
  | protocolErr : JsValue → OpResult
  | ok : JsValue → OpResult

/-- Completing a call against a stubbed transport: a locally thrown error
propagates; a dispatched request is answered with `response`, on which the
source performs the property read `response.error` — an engine TypeError if
the parsed body is `null` or `undefined` — and then throws the response
whole when that field is truthy and returns the response whole otherwise
(the response-handling half of `LokiRequest`). -/
def complete (o : CallOutcome) (response : JsValue) : OpResult :=
  match o with
  | .thrown e => .err e
  | .dispatched _ =>
      match getProp response "error" with
      | .error e => .err e
      | .ok errField =>
          if truthy errField then .protocolErr response else .ok response

/-- `Requests.prototype.getBalancesByKey`.  The source reads
`params.publicKeys` without a prior `!params` guard, so a missing parameter
object raises the engine TypeError from the property read rather than a
validation error. -/
def getBalancesByKey (self : Requests) (params : JsValue) (id : JsValue) :
    CallOutcome :=
  match getProp params "publicKeys" with
  | .error e => .thrown e
  | .ok pk =>
      if truthy pk = false ∨ isArray pk = false then
        .thrown (.validation "A list of publicKeys must be specified")
      else .dispatched (lokiRequest ⟨"wallet/", "balances", id⟩ params self)

/-- `Requests.prototype.listOpenKeyfiles` (no parameter object; sends `{}`). -/
def listOpenKeyfiles (self : Requests) (id : JsValue) : CallOutcome :=
  .dispatched (lokiRequest ⟨"wallet/", "listOpenKeyfiles", id⟩ (.obj []) self)

/-- `Requests.prototype.generateKeyfile`. -/
def generateKeyfile (self : Requests) (params : JsValue) (id : JsValue) :
    CallOutcome :=
  if truthy params = false then
    .thrown (.validation "A parameter object must be specified")
  else if truthy (getField params "password") = false then
    .thrown (.validation "A password must be provided to encrypt the keyfile")
  else .dispatched (lokiRequest ⟨"wallet/", "generateKeyfile", id⟩ params self)

/-- `Requests.prototype.lockKeyfile`. -/
def lockKeyfile (self : Requests) (params : JsValue) (id : JsValue) :
    CallOutcome :=
  if truthy params = false then
    .thrown (.validation "A parameter object must be specified")
  else if truthy (getField params "publicKey") = false then
    .thrown (.validation "A publicKey field must be specified")
  else if truthy (getField params "password") = false then
    .thrown (.validation "A password must be provided to encrypt the keyfile")
  else .dispatched (lokiRequest ⟨"wallet/", "lockKeyfile", id⟩ params self)

/-- `Requests.prototype.unlockKeyfile`. -/
def unlockKeyfile (self : Requests) (params : JsValue) (id : JsValue) :
    CallOutcome :=
  if truthy params = false then
    .thrown (.validation "A parameter object must be specified")
  else if truthy (getField params "publicKey") = false then
    .thrown (.validation "A publicKey field must be specified")
  else if truthy (getField params "password") = false then
    .thrown (.validation "A password must be provided to encrypt the keyfile")
  else .dispatched (lokiRequest ⟨"wallet/", "unlockKeyfile", id⟩ params self)

/-- `Requests.prototype.signTransaction`. -/
def signTransaction (self : Requests) (params : JsValue) (id : JsValue) :
    CallOutcome :=
  if truthy params = false then
    .thrown (.validation "A parameter object must be specified")
  else if truthy (getField params "publicKey") = false then
    .thrown (.validation "A publicKey field must be specified")
  else if truthy (getField params "tx") = false then
    .thrown (.validation "A tx object must be specified")
  else .dispatched (lokiRequest ⟨"wallet/", "signTx", id⟩ params self)

/-- `Requests.prototype.broadcastTx`. -/
def broadcastTx (self : Requests) (params : JsValue) (id : JsValue) :
    CallOutcome :=
  if truthy params = false then
    .thrown (.validation "A parameter object must be specified")
  else if truthy (getField params "tx") = false then
    .thrown (.validation "A tx object must be specified")
  else .dispatched (lokiRequest ⟨"wallet/", "broadcastTx", id⟩ params self)

/-- `Requests.prototype.transferPolys`.  The fee check is
`!params.fee && params.fee !== 0`: a fee of literal `0` is accepted. -/
def transferPolys (self : Requests) (params : JsValue) (id : JsValue) :
    CallOutcome :=
  if truthy params = false then
    .thrown (.validation "A parameter object must be specified")
  else if truthy (getField params "recipient") = false then
    .thrown (.validation "A recipient must be specified")
  else if truthy (getField params "amount") = false then
    .thrown (.validation "An amount must be specified")
  else if truthy (getField params "fee") = false ∧
      strictEqZero (getField params "fee") = false then
    .thrown (.validation "A fee must be specified")
  else .dispatched (lokiRequest ⟨"wallet/", "transferPolys", id⟩ params self)

/-- `Requests.prototype.transferArbits`. -/
def transferArbits (self : Requests) (params : JsValue) (id : JsValue) :
    CallOutcome :=
  if truthy params = false then
    .thrown (.validation "A parameter object must be specified")
  else if truthy (getField params "recipient") = false then
    .thrown (.validation "A recipient must be specified")
  else if truthy (getField params "amount") = false then
    .thrown (.validation "An amount must be specified")
  else if truthy (getField params "fee") = false ∧
      strictEqZero (getField params "fee") = false then
    .thrown (.validation "A fee must be specified")
  else .dispatched (lokiRequest ⟨"wallet/", "transferArbits", id⟩ params self)

/-- `Requests.prototype.createAssets`. -/
def createAssets (self : Requests) (params : JsValue) (id : JsValue) :
    CallOutcome :=
  if truthy params = false then
    .thrown (.validation "A parameter object must be specified")
  else if truthy (getField params "issuer") = false then
    .thrown (.validation "An asset issuer must be specified")
  else if truthy (getField params "assetCode") = false then
    .thrown (.validation "An assetCode must be specified")
  else if truthy (getField params "recipient") = false then
    .thrown (.validation "A recipient must be specified")
  else if truthy (getField params "amount") = false then
    .thrown (.validation "An amount must be specified")
  else if truthy (getField params "fee") = false ∧
      strictEqZero (getField params "fee") = false then
    .thrown (.validation "A fee must be specified")
  else .dispatched (lokiRequest ⟨"asset/", "createAssets", id⟩ params self)

/-- `Requests.prototype.createAssetsPrototype`. -/
def createAssetsPrototype (self : Requests) (params : JsValue) (id : JsValue) :
    CallOutcome :=
  if truthy params = false then
    .thrown (.validation "A parameter object must be specified")
  else if truthy (getField params "issuer") = false then
    .thrown (.validation "An asset issuer must be specified")
  else if truthy (getField params "assetCode") = false then
    .thrown (.validation "An assetCode must be specified")
  else if truthy (getField params "recipient") = false then
    .thrown (.validation "A recipient must be specified")
  else if truthy (getField params "amount") = false then
    .thrown (.validation "An amount must be specified")
  else if truthy (getField params "fee") = false ∧
      strictEqZero (getField params "fee") = false then
    .thrown (.validation "A fee must be specified")
  else .dispatched
    (lokiRequest ⟨"asset/", "createAssetsPrototype", id⟩ params self)

/-- `Requests.prototype.transferAssets`. -/
def transferAssets (self : Requests) (params : JsValue) (id : JsValue) :
    CallOutcome :=
  if truthy params = false then
    .thrown (.validation "A parameter object must be specified")
  else if truthy (getField params "issuer") = false then
    .thrown (.validation "An asset issuer must be specified")
  else if truthy (getField params "assetCode") = false then
    .thrown (.validation "An assetCode must be specified")
  else if truthy (getField params "recipient") = false then
    .thrown (.validation "A recipient must be specified")
  else if truthy (getField params "amount") = false then
    .thrown (.validation "An amount must be specified")
  else if truthy (getField params "fee") = false ∧
      strictEqZero (getField params "fee") = false then
    .thrown (.validation "A fee must be specified")
  else .dispatched (lokiRequest ⟨"asset/", "transferAssets", id⟩ params self)

/-- `Requests.prototype.transferAssetsPrototype` (also requires `sender`,
checked between `recipient` and `amount`). -/
def transferAssetsPrototype (self : Requests) (params : JsValue)
    (id : JsValue) : CallOutcome :=
  if truthy params = false then
    .thrown (.validation "A parameter object must be specified")
  else if truthy (getField params "issuer") = false then
    .thrown (.validation "An asset issuer must be specified")
  else if truthy (getField params "assetCode") = false then
    .thrown (.validation "An assetCode must be specified")
  else if truthy (getField params "recipient") = false then
    .thrown (.validation "A recipient must be specified")
  else if truthy (getField params "sender") = false then
    .thrown (.validation "A sender must be specified")
  else if truthy (getField params "amount") = false then
    .thrown (.validation "An amount must be specified")
  else if truthy (getField params "fee") = false ∧
      strictEqZero (getField params "fee") = false then
    .thrown (.validation "A fee must be specified")
  else .dispatched
    (lokiRequest ⟨"asset/", "transferAssetsPrototype", id⟩ params self)

/-- `Requests.prototype.transferTargetAssets`. -/
def transferTargetAssets (self : Requests) (params : JsValue) (id : JsValue) :
    CallOutcome :=
  if truthy params = false then
    .thrown (.validation "A parameter object must be specified")
  else if truthy (getField params "recipient") = false then
    .thrown (.validation "A recipient must be specified")
  else if truthy (getField params "assetId") = false then
    .thrown (.validation "An assetId is required for this request")
  else if truthy (getField params "amount") = false then
    .thrown (.validation "An amount must be specified")
  else if truthy (getField params "fee") = false ∧
      strictEqZero (getField params "fee") = false then
    .thrown (.validation "A fee must be specified")
  else .dispatched
    (lokiRequest ⟨"asset/", "transferTargetAssets", id⟩ params self)

/-- `Requests.prototype.transferTargetAssetsPrototype`. -/
def transferTargetAssetsPrototype (self : Requests) (params : JsValue)
    (id : JsValue) : CallOutcome :=
  if truthy params = false then
    .thrown (.validation "A parameter object must be specified")
  else if truthy (getField params "recipient") = false then
    .thrown (.validation "A recipient must be specified")
  else if truthy (getField params "sender") = false then
    .thrown (.validation "A sender must be specified")
  else if truthy (getField params "assetId") = false then
    .thrown (.validation "An assetId is required for this request")
  else if truthy (getField params "amount") = false then
    .thrown (.validation "An amount must be specified")
  else if truthy (getField params "fee") = false ∧
      strictEqZero (getField params "fee") = false then
    .thrown (.validation "A fee must be specified")
  else .dispatched
    (lokiRequest ⟨"asset/", "transferTargetAssetsPrototype", id⟩ params self)

/-- `Requests.prototype.getTransactionById`. -/
def getTransactionById (self : Requests) (params : JsValue) (id : JsValue) :
    CallOutcome :=
  if truthy params = false then
    .thrown (.validation "A parameter object must be specified")
  else if truthy (getField params "transactionId") = false then
    .thrown (.validation "A transactionId must be specified")
  else .dispatched (lokiRequest ⟨"nodeView/", "transactionById", id⟩ params self)

/-- `Requests.prototype.getTransactionFromMempool`. -/
def getTransactionFromMempool (self : Requests) (params : JsValue)
    (id : JsValue) : CallOutcome :=
  if truthy params = false then
    .thrown (.validation "A parameter object must be specified")
  else if truthy (getField params "transactionId") = false then
    .thrown (.validation "A transactionId must be specified")
  else .dispatched
    (lokiRequest ⟨"nodeView/", "transactionFromMempool", id⟩ params self)

/-- `Requests.prototype.getMempool` (no parameter object; sends `{}`). -/
def getMempool (self : Requests) (id : JsValue) : CallOutcome :=
  .dispatched (lokiRequest ⟨"nodeView/", "mempool", id⟩ (.obj []) self)

/-- `Requests.prototype.getBlockById`. -/
def getBlockById (self : Requests) (params : JsValue) (id : JsValue) :
    CallOutcome :=
  if truthy params = false then
    .thrown (.validation "A parameter object must be specified")
  else if truthy (getField params "blockId") = false then
    .thrown (.validation "A blockId must be specified")
  else .dispatched (lokiRequest ⟨"nodeView/", "blockById", id⟩ params self)

/-- `Requests.prototype.chainInfo` (no parameter object; sends `{}`). -/
def chainInfo (self : Requests) (id : JsValue) : CallOutcome :=
  .dispatched (lokiRequest ⟨"debug/", "info", id⟩ (.obj []) self)

/-- `Requests.prototype.calcDelay`.  The source declares it as
`async function (id = "1")` — there is no `params` parameter — yet its body
begins with `if (!params)`, reading the undeclared identifier `params`.
Every call therefore throws the engine ReferenceError before any of its
validation checks or its dispatch
(`route "debug/"`, `method "delay"`) can run. -/
def calcDelay (_self : Requests) (_id : JsValue) : CallOutcome :=
  .thrown (.refError "params")

/-- `Requests.prototype.myBlocks` (no parameter object; sends `{}`). -/
def myBlocks (self : Requests) (id : JsValue) : CallOutcome :=
  .dispatched (lokiRequest ⟨"debug/", "myBlocks", id⟩ (.obj []) self)

/-- `Requests.prototype.blockGenerators` (no parameter object; sends `{}`). -/
def blockGenerators (self : Requests) (id : JsValue) : CallOutcome :=
  .dispatched (lokiRequest ⟨"debug/", "generators", id⟩ (.obj []) self)

/-- `Requests.prototype.printChain` (no parameter object; sends `{}`). -/
def printChain (self : Requests) (id : JsValue) : CallOutcome :=
  .dispatched (lokiRequest ⟨"debug/", "chain", id⟩ (.obj []) self)

/-- The names of the 24 public operations of the catalog. -/
inductive OpName where
  | getBalancesByKey | listOpenKeyfiles | generateKeyfile | lockKeyfile
  | unlockKeyfile | signTransaction | broadcastTx | transferPolys
  | transferArbits | createAssets | createAssetsPrototype | transferAssets
  | transferAssetsPrototype | transferTargetAssets
  | transferTargetAssetsPrototype | getTransactionById
  | getTransactionFromMempool | getMempool | getBlockById | chainInfo
  | calcDelay | myBlocks | blockGenerators | printChain
  deriving DecidableEq, Repr

/-- Invoking an operation the way a caller following the documented contract
does: `r.op(params, id)` for operations taking a parameter object,
`r.op(id)` for the no-parameter operations (whose `params` slot below is
ignored).  For `calcDelay` the source function's only parameter is `id`, so
a caller passing a parameter object binds it to `id` and the second argument
is dropped. -/
def callOp : OpName → Requests → JsValue → JsValue → CallOutcome
  | .getBalancesByKey, self, params, id => getBalancesByKey self params id
  | .listOpenKeyfiles, self, _, id => listOpenKeyfiles self id
  | .generateKeyfile, self, params, id => generateKeyfile self params id
  | .lockKeyfile, self, params, id => lockKeyfile self params id
  | .unlockKeyfile, self, params, id => unlockKeyfile self params id
  | .signTransaction, self, params, id => signTransaction self params id
  | .broadcastTx, self, params, id => broadcastTx self params id
  | .transferPolys, self, params, id => transferPolys self params id
  | .transferArbits, self, params, id => transferArbits self params id
  | .createAssets, self, params, id => createAssets self params id
  | .createAssetsPrototype, self, params, id =>
      createAssetsPrototype self params id
  | .transferAssets, self, params, id => transferAssets self params id
  | .transferAssetsPrototype, self, params, id =>
      transferAssetsPrototype self params id
  | .transferTargetAssets, self, params, id =>
      transferTargetAssets self params id
  | .transferTargetAssetsPrototype, self, params, id =>
      transferTargetAssetsPrototype self params id
  | .getTransactionById, self, params, id => getTransactionById self params id
  | .getTransactionFromMempool, self, params, id =>
      getTransactionFromMempool self params id
  | .getMempool, self, _, id => getMempool self id
  | .getBlockById, self, params, id => getBlockById self params id
  | .chainInfo, self, _, id => chainInfo self id
  | .calcDelay, self, params, _ => calcDelay self params
  | .myBlocks, self, _, id => myBlocks self id
  | .blockGenerators, self, _, id => blockGenerators self id
  | .printChain, self, _, id => printChain self id

/-- The fixed route of each operation (transcribed from the source). -/
def opRoute : OpName → String
  | .getBalancesByKey => "wallet/"
  | .listOpenKeyfiles => "wallet/"
  | .generateKeyfile => "wallet/"
  | .lockKeyfile => "wallet/"
  | .unlockKeyfile => "wallet/"
  | .signTransaction => "wallet/"
  | .broadcastTx => "wallet/"
  | .transferPolys => "wallet/"
  | .transferArbits => "wallet/"
  | .createAssets => "asset/"
  | .createAssetsPrototype => "asset/"
  | .transferAssets => "asset/"
  | .transferAssetsPrototype => "asset/"
  | .transferTargetAssets => "asset/"
  | .transferTargetAssetsPrototype => "asset/"
  | .getTransactionById => "nodeView/"
  | .getTransactionFromMempool => "nodeView/"
  | .getMempool => "nodeView/"
  | .getBlockById => "nodeView/"
  | .chainInfo => "debug/"
  | .calcDelay => "debug/"
  | .myBlocks => "debug/"
  | .blockGenerators => "debug/"
  | .printChain => "debug/"

/-- The fixed json-rpc method of each operation (transcribed from the
source). -/
def opMethod : OpName → String
  | .getBalancesByKey => "balances"
  | .listOpenKeyfiles => "listOpenKeyfiles"
  | .generateKeyfile => "generateKeyfile"
  | .lockKeyfile => "lockKeyfile"
  | .unlockKeyfile => "unlockKeyfile"
  | .signTransaction => "signTx"
  | .broadcastTx => "broadcastTx"
  | .transferPolys => "transferPolys"
  | .transferArbits => "transferArbits"
  | .createAssets => "createAssets"
  | .createAssetsPrototype => "createAssetsPrototype"
  | .transferAssets => "transferAssets"
  | .transferAssetsPrototype => "transferAssetsPrototype"
  | .transferTargetAssets => "transferTargetAssets"
  | .transferTargetAssetsPrototype => "transferTargetAssetsPrototype"
  | .getTransactionById => "transactionById"
  | .getTransactionFromMempool => "transactionFromMempool"
  | .getMempool => "mempool"
  | .getBlockById => "blockById"
  | .chainInfo => "info"
  | .calcDelay => "delay"
  | .myBlocks => "myBlocks"
  | .blockGenerators => "generators"
  | .printChain => "chain"

/-- Whether the operation builds its own empty parameter object (`{}`) rather
than forwarding the caller's. -/
def opNoParams : OpName → Bool
  | .listOpenKeyfiles => true
  | .getMempool => true
  | .chainInfo => true
  | .myBlocks => true
  | .blockGenerators => true
  | .printChain => true
  | _ => false

/-- The parameter object an operation hands to `LokiRequest`: the caller's
for parameter-taking operations, `{}` for the no-parameter ones. -/
def opSentParams (op : OpName) (params : JsValue) : JsValue :=
  if opNoParams op then .obj [] else params

/- ------------------------------------------------------------------ -/
/- Theorems.                                                           -/
/- ------------------------------------------------------------------ -/

/-- The value that ends up in the `id` slot of `routeInfo` when an operation
is invoked as documented: the `id` argument, except for `calcDelay`, whose
only function parameter is `id`, so the first positional argument (the
parameter object) lands there. -/
def opUsedId : OpName → JsValue → JsValue → JsValue
  | .calcDelay, params, _ => params
  | _, _, id => id

/-- Inversion: whenever an operation dispatches, the request it dispatches is
exactly the one `LokiRequest` builds from the operation's fixed route and
method, the parameter object it hands over, and the id slot. -/
theorem dispatched_eq (op : OpName) (self : Requests) (params id : JsValue)
    (req : HttpRequest) (h : callOp op self params id = .dispatched req) :
    req = lokiRequest ⟨opRoute op, opMethod op, opUsedId op params id⟩
      (opSentParams op params) self := by
  cases op <;>
    simp only [callOp, getBalancesByKey, listOpenKeyfiles, generateKeyfile,
      lockKeyfile, unlockKeyfile, signTransaction, broadcastTx, transferPolys,
      transferArbits, createAssets, createAssetsPrototype, transferAssets,
      transferAssetsPrototype, transferTargetAssets,
      transferTargetAssetsPrototype, getTransactionById,
      getTransactionFromMempool, getMempool, getBlockById, chainInfo,
      calcDelay, myBlocks, blockGenerators, printChain] at h <;>
    (repeat' split at h) <;>
    simp_all [opRoute, opMethod, opUsedId, opSentParams, opNoParams]

/-- C5: every dispatched request targets the configured base url concatenated
with the operation's fixed route, uses HTTP POST, and its body is the
json-rpc 2.0 envelope wrapping the sent parameter object as the sole element
of `params`; in particular `getMempool` with default id sends exactly
`{"jsonrpc":"2.0","id":"1","method":"mempool","params":[{}]}` (rendered) to
`<baseUrl>nodeView/`. -/
theorem claim_C5_envelope :
    (∀ (op : OpName) (self : Requests) (params id : JsValue)
      (req : HttpRequest), callOp op self params id = .dispatched req →
      req.url = self.url ++ opRoute op ∧ req.httpMethod = "POST" ∧
      req.body.jsonrpc = "2.0" ∧ req.body.method = opMethod op ∧
      req.body.params = [spreadObj (opSentParams op params)]) ∧
    (∀ self : Requests,
      callOp .getMempool self (.obj []) (.str "1") = .dispatched
        ⟨self.url ++ "nodeView/", "POST", self.headers,
          ⟨"2.0", .str "1", "mempool", [.obj []]⟩⟩ ∧
      serializeBody ⟨"2.0", .str "1", "mempool", [.obj []]⟩ =
        "\x7b\"jsonrpc\":\"2.0\",\"id\":\"1\",\"method\":\"mempool\",\"params\":[\x7b\x7d]\x7d") := by
  constructor
  · intro op self params id req h
    rw [dispatched_eq op self params id req h]
    exact ⟨rfl, rfl, rfl, rfl, rfl⟩
  · intro self
    exact ⟨rfl, rfl⟩

/-- Witness for C5: the `getMempool` dispatch on the default configuration,
with the hypothesis discharged by computation. -/
theorem claim_C5_envelope_witness :
    (lokiRequest ⟨"nodeView/", "mempool", .str "1"⟩ (.obj []) mkRequests).url =
      mkRequests.url ++ opRoute .getMempool ∧
    (lokiRequest ⟨"nodeView/", "mempool", .str "1"⟩ (.obj [])
        mkRequests).body.params =
      [spreadObj (opSentParams .getMempool (.obj []))] :=
  ⟨(claim_C5_envelope.1 .getMempool mkRequests (.obj []) (.str "1") _ rfl).1,
   (claim_C5_envelope.1 .getMempool mkRequests (.obj [])
      (.str "1") _ rfl).2.2.2.2⟩

/-- C9: the envelope id is `"1"` whenever the caller-supplied id is falsy
(for example `""` or `0`), and a truthy id is forwarded unchanged. -/
theorem claim_C9_id_default (op : OpName) (self : Requests)
    (params id : JsValue) (req : HttpRequest)
    (h : callOp op self params id = .dispatched req) :
    req.body.id = if truthy id then id else .str "1" := by
  cases op
  case calcDelay => simp [callOp, calcDelay] at h
  all_goals rw [dispatched_eq _ self params id req h]; rfl

/-- Witness for C9: `getMempool` called with the falsy id `0` produces an
envelope whose id is `"1"`. -/
theorem claim_C9_id_default_witness :
    (lokiRequest ⟨"nodeView/", "mempool", .num 0⟩ (.obj [])
        mkRequests).body.id =
      if truthy (.num 0) then JsValue.num 0 else .str "1" :=
  claim_C9_id_default .getMempool mkRequests (.obj []) (.num 0) _ rfl

/-- C8: the constructor defaults the url to `http://localhost:9085/` and the
api key to `topl_the_world!`; `setUrl`/`setApiKey` overwrite the shared
configuration with no validation; every dispatch made after a setter call
targets the new url (resp. carries the new `x-api-key`). -/
theorem claim_C8_config :
    mkRequests.url = "http://localhost:9085/" ∧
    mkRequests.headers.xApiKey = "topl_the_world!" ∧
    mkRequests.headers.contentType = "application/json" ∧
    (∀ (self : Requests) (u : String),
      (setUrl self u).url = u ∧ (setUrl self u).headers = self.headers) ∧
    (∀ (self : Requests) (k : String),
      (setApiKey self k).headers.xApiKey = k ∧
      (setApiKey self k).url = self.url ∧
      (setApiKey self k).headers.contentType = self.headers.contentType) ∧
    (∀ (op : OpName) (self : Requests) (u : String) (params id : JsValue)
      (req : HttpRequest),
      callOp op (setUrl self u) params id = .dispatched req →
      req.url = u ++ opRoute op) ∧
    (∀ (op : OpName) (self : Requests) (k : String) (params id : JsValue)
      (req : HttpRequest),
      callOp op (setApiKey self k) params id = .dispatched req →
      req.headers.xApiKey = k) := by
  refine ⟨rfl, rfl, rfl, fun self u => ⟨rfl, rfl⟩,
    fun self k => ⟨rfl, rfl, rfl⟩, ?_, ?_⟩
  · intro op self u params id req h
    rw [dispatched_eq _ _ _ _ _ h]; rfl
  · intro op self k params id req h
    rw [dispatched_eq _ _ _ _ _ h]; rfl

/-- Witness for C8: a `getMempool` dispatch after `setUrl` targets the new
url, and a `chainInfo` dispatch after `setApiKey` carries the new key. -/
theorem claim_C8_config_witness :
    (lokiRequest ⟨"nodeView/", "mempool", .str "1"⟩ (.obj [])
        (setUrl mkRequests "http://example:1234/")).url =
      "http://example:1234/" ++ opRoute .getMempool ∧
    (lokiRequest ⟨"debug/", "info", .str "1"⟩ (.obj [])
        (setApiKey mkRequests "k2")).headers.xApiKey = "k2" :=
  ⟨claim_C8_config.2.2.2.2.2.1 .getMempool mkRequests "http://example:1234/"
      (.obj []) (.str "1") _ rfl,
   claim_C8_config.2.2.2.2.2.2 .chainInfo mkRequests "k2"
      (.obj []) (.str "1") _ rfl⟩

/-- C1 counterexample: a parsed response body that does contain an `error`
field — with the falsy value `false` — makes the call succeed, because the
source tests `if (response.error)`, i.e. the truthiness of the field, not
its presence. -/
theorem claim_C1_counterexample :
    hasField (.obj [("error", .bool false)]) "error" = true ∧
    complete (callOp .getMempool mkRequests (.obj []) (.str "1"))
        (.obj [("error", .bool false)]) =
      .ok (.obj [("error", .bool false)]) :=
  ⟨rfl, rfl⟩

/-- C1 amended: for every operation that reaches dispatch and every parsed
response body, the call fails with the response thrown whole — carrying the
node-reported error object as its `error` field — exactly when the body's
`error` field is truthy (the source tests `if (response.error)`, not field
presence); when the body is neither `null` nor `undefined` and its `error`
field is absent or falsy, the call succeeds with the body as-is; a `null`
or `undefined` parsed body fails differently, with the engine TypeError
from the `response.error` read itself. -/
theorem claim_C1_error_truthy (op : OpName) (self : Requests)
    (params id : JsValue) (req : HttpRequest) (r : JsValue)
    (h : callOp op self params id = .dispatched req) :
    (truthy (getField r "error") = true →
      complete (callOp op self params id) r = .protocolErr r) ∧
    (r ≠ .nullV → r ≠ .undefined → truthy (getField r "error") = false →
      complete (callOp op self params id) r = .ok r) ∧
    complete (callOp op self params id) .nullV =
      .err (.typeError "error") ∧
    complete (callOp op self params id) .undefined =
      .err (.typeError "error") := by
  rw [h]
  refine ⟨?_, ?_, rfl, rfl⟩
  · intro ht
    cases r <;> simp_all [complete, getProp, getField, truthy]
  · intro hn hu ht
    cases r <;> simp_all [complete, getProp]

/-- Witness for C1: the spec's stubbed body
`{"error":{"code":1,"message":"x"}}` makes a `getMempool` call throw the
response (which wraps that error object). -/
theorem claim_C1_error_truthy_witness :
    complete (callOp .getMempool mkRequests (.obj []) (.str "1"))
        (.obj [("error", .obj [("code", .num 1), ("message", .str "x")])]) =
      .protocolErr
        (.obj [("error", .obj [("code", .num 1), ("message", .str "x")])]) :=
  (claim_C1_error_truthy .getMempool mkRequests (.obj []) (.str "1")
      _ _ rfl).1 rfl

/-- C6 counterexample: with the stubbed transport body
`{"result":{"ok":true}}`, the call resolves with the whole body — the
`result` wrapper included — not with `{"ok":true}`: the source returns
`response`, never unwraps `response.result`. -/
theorem claim_C6_counterexample :
    complete (callOp .getMempool mkRequests (.obj []) (.str "1"))
        (.obj [("result", .obj [("ok", .bool true)])]) =
      .ok (.obj [("result", .obj [("ok", .bool true)])]) ∧
    JsValue.obj [("result", .obj [("ok", .bool true)])] ≠
      .obj [("ok", .bool true)] := by
  refine ⟨rfl, ?_⟩
  simp

/-- C6 amended: with the stubbed transport body `{"result":{"ok":true}}`,
every operation call that reaches dispatch resolves with that body as-is,
whose `result` field is `{"ok":true}` unmodified. -/
theorem claim_C6_result_body (op : OpName) (self : Requests)
    (params id : JsValue) (req : HttpRequest)
    (h : callOp op self params id = .dispatched req) :
    complete (callOp op self params id)
        (.obj [("result", .obj [("ok", .bool true)])]) =
      .ok (.obj [("result", .obj [("ok", .bool true)])]) ∧
    getField (.obj [("result", .obj [("ok", .bool true)])]) "result" =
      .obj [("ok", .bool true)] := by
  rw [h]
  exact ⟨rfl, rfl⟩

/-- Witness for C6 at `getMempool` on the default configuration. -/
theorem claim_C6_result_body_witness :
    complete (callOp .getMempool mkRequests (.obj []) (.str "1"))
        (.obj [("result", .obj [("ok", .bool true)])]) =
      .ok (.obj [("result", .obj [("ok", .bool true)])]) :=
  (claim_C6_result_body .getMempool mkRequests (.obj []) (.str "1") _ rfl).1

/-- C3 counterexample: `getBalancesByKey` requires a parameter object, yet
calling it without one does not produce the validation message — the source
has no `!params` guard there and the property read `params.publicKeys`
raises the engine TypeError instead. -/
theorem claim_C3_counterexample :
    getBalancesByKey mkRequests .undefined (.str "1") =
      .thrown (.typeError "publicKeys") ∧
    CallOutcome.thrown (.typeError "publicKeys") ≠
      .thrown (.validation "A parameter object must be specified") := by
  refine ⟨rfl, ?_⟩
  simp

/-- C3 amended: every operation that requires a parameter object and guards
it — all of them except `getBalancesByKey` and `calcDelay` — fails with the
message "A parameter object must be specified" when none is supplied, before
any request is built; `getBalancesByKey` instead throws the engine TypeError
from reading `publicKeys` on `undefined`, and `calcDelay` throws the engine
ReferenceError from its undeclared `params` variable. -/
theorem claim_C3_param_guard (self : Requests) (id : JsValue) :
    generateKeyfile self .undefined id =
      .thrown (.validation "A parameter object must be specified") ∧
    lockKeyfile self .undefined id =
      .thrown (.validation "A parameter object must be specified") ∧
    unlockKeyfile self .undefined id =
      .thrown (.validation "A parameter object must be specified") ∧
    signTransaction self .undefined id =
      .thrown (.validation "A parameter object must be specified") ∧
    broadcastTx self .undefined id =
      .thrown (.validation "A parameter object must be specified") ∧
    transferPolys self .undefined id =
      .thrown (.validation "A parameter object must be specified") ∧
    transferArbits self .undefined id =
      .thrown (.validation "A parameter object must be specified") ∧
    createAssets self .undefined id =
      .thrown (.validation "A parameter object must be specified") ∧
    createAssetsPrototype self .undefined id =
      .thrown (.validation "A parameter object must be specified") ∧
    transferAssets self .undefined id =
      .thrown (.validation "A parameter object must be specified") ∧
    transferAssetsPrototype self .undefined id =
      .thrown (.validation "A parameter object must be specified") ∧
    transferTargetAssets self .undefined id =
      .thrown (.validation "A parameter object must be specified") ∧
    transferTargetAssetsPrototype self .undefined id =
      .thrown (.validation "A parameter object must be specified") ∧
    getTransactionById self .undefined id =
      .thrown (.validation "A parameter object must be specified") ∧
    getTransactionFromMempool self .undefined id =
      .thrown (.validation "A parameter object must be specified") ∧
    getBlockById self .undefined id =
      .thrown (.validation "A parameter object must be specified") ∧
    getBalancesByKey self .undefined id = .thrown (.typeError "publicKeys") ∧
    calcDelay self id = .thrown (.refError "params") :=
  ⟨rfl, rfl, rfl, rfl, rfl, rfl, rfl, rfl, rfl, rfl, rfl, rfl, rfl, rfl, rfl,
   rfl, rfl, rfl⟩

/-- C7: every call to `calcDelay` — here the documented call shape
`calcDelay({blockId, numBlocks}, id)`, whose first positional argument lands
in the function's only parameter `id` — throws the ReferenceError for the
undeclared `params` variable instead of validating and dispatching to
`debug/` with method `delay`. -/
theorem claim_C7_calcDelay_broken :
    callOp .calcDelay mkRequests
        (.obj [("blockId", .str "b"), ("numBlocks", .num 3)]) (.str "1") =
      .thrown (.refError "params") ∧
    ∀ (self : Requests) (id : JsValue),
      calcDelay self id = .thrown (.refError "params") :=
  ⟨rfl, fun _ _ => rfl⟩

/-- C4 counterexample: `calcDelay` has required fields (`blockId`,
`numBlocks`), yet calling it with the first one missing does not raise the
validation error naming `blockId` — it throws the ReferenceError for the
undeclared `params` variable. -/
theorem claim_C4_counterexample :
    callOp .calcDelay mkRequests (.obj [("numBlocks", .num 3)]) (.str "1") =
      .thrown (.refError "params") ∧
    callOp .calcDelay mkRequests (.obj [("numBlocks", .num 3)]) (.str "1") ≠
      .thrown (.validation "A blockId must be specified") := by
  refine ⟨rfl, ?_⟩
  simp [callOp, calcDelay]

/-- C4 amended: for every operation with required fields except `calcDelay`
(which always throws a ReferenceError before validating), a supplied
parameter object whose first declared required field is falsy raises the
validation error naming that field, whatever the remaining fields hold. -/
theorem claim_C4_first_field (self : Requests) (params id : JsValue)
    (hp : truthy params = true) :
    (truthy (getField params "publicKeys") = false →
      getBalancesByKey self params id =
        .thrown (.validation "A list of publicKeys must be specified")) ∧
    (truthy (getField params "password") = false →
      generateKeyfile self params id =
        .thrown (.validation
          "A password must be provided to encrypt the keyfile")) ∧
    (truthy (getField params "publicKey") = false →
      lockKeyfile self params id =
        .thrown (.validation "A publicKey field must be specified")) ∧
    (truthy (getField params "publicKey") = false →
      unlockKeyfile self params id =
        .thrown (.validation "A publicKey field must be specified")) ∧
    (truthy (getField params "publicKey") = false →
      signTransaction self params id =
        .thrown (.validation "A publicKey field must be specified")) ∧
    (truthy (getField params "tx") = false →
      broadcastTx self params id =
        .thrown (.validation "A tx object must be specified")) ∧
    (truthy (getField params "recipient") = false →
      transferPolys self params id =
        .thrown (.validation "A recipient must be specified")) ∧
    (truthy (getField params "recipient") = false →
      transferArbits self params id =
        .thrown (.validation "A recipient must be specified")) ∧
    (truthy (getField params "issuer") = false →
      createAssets self params id =
        .thrown (.validation "An asset issuer must be specified")) ∧
    (truthy (getField params "issuer") = false →
      createAssetsPrototype self params id =
        .thrown (.validation "An asset issuer must be specified")) ∧
    (truthy (getField params "issuer") = false →
      transferAssets self params id =
        .thrown (.validation "An asset issuer must be specified")) ∧
    (truthy (getField params "issuer") = false →
      transferAssetsPrototype self params id =
        .thrown (.validation "An asset issuer must be specified")) ∧
    (truthy (getField params "recipient") = false →
      transferTargetAssets self params id =
        .thrown (.validation "A recipient must be specified")) ∧
    (truthy (getField params "recipient") = false →
      transferTargetAssetsPrototype self params id =
        .thrown (.validation "A recipient must be specified")) ∧
    (truthy (getField params "transactionId") = false →
      getTransactionById self params id =
        .thrown (.validation "A transactionId must be specified")) ∧
    (truthy (getField params "transactionId") = false →
      getTransactionFromMempool self params id =
        .thrown (.validation "A transactionId must be specified")) ∧
    (truthy (getField params "blockId") = false →
      getBlockById self params id =
        .thrown (.validation "A blockId must be specified")) := by
  constructor
  · intro hf
    cases params <;> simp_all [getBalancesByKey, getProp, truthy]
  · refine ⟨?_, ?_, ?_, ?_, ?_, ?_, ?_, ?_, ?_, ?_, ?_, ?_, ?_, ?_, ?_, ?_⟩ <;>
      intro hf <;>
      simp_all [generateKeyfile, lockKeyfile, unlockKeyfile, signTransaction,
        broadcastTx, transferPolys, transferArbits, createAssets,
        createAssetsPrototype, transferAssets, transferAssetsPrototype,
        transferTargetAssets, transferTargetAssetsPrototype,
        getTransactionById, getTransactionFromMempool, getBlockById]

/-- Witness for C4: a truthy parameter object carrying none of the required
fields makes each operation name its first declared field. -/
theorem claim_C4_first_field_witness :
    getBalancesByKey mkRequests (.obj [("unrelated", .str "x")]) (.str "1") =
      .thrown (.validation "A list of publicKeys must be specified") ∧
    generateKeyfile mkRequests (.obj [("unrelated", .str "x")]) (.str "1") =
      .thrown (.validation
        "A password must be provided to encrypt the keyfile") ∧
    lockKeyfile mkRequests (.obj [("unrelated", .str "x")]) (.str "1") =
      .thrown (.validation "A publicKey field must be specified") ∧
    unlockKeyfile mkRequests (.obj [("unrelated", .str "x")]) (.str "1") =
      .thrown (.validation "A publicKey field must be specified") ∧
    signTransaction mkRequests (.obj [("unrelated", .str "x")]) (.str "1") =
      .thrown (.validation "A publicKey field must be specified") ∧
    broadcastTx mkRequests (.obj [("unrelated", .str "x")]) (.str "1") =
      .thrown (.validation "A tx object must be specified") ∧
    transferPolys mkRequests (.obj [("unrelated", .str "x")]) (.str "1") =
      .thrown (.validation "A recipient must be specified") ∧
    transferArbits mkRequests (.obj [("unrelated", .str "x")]) (.str "1") =
      .thrown (.validation "A recipient must be specified") ∧
    createAssets mkRequests (.obj [("unrelated", .str "x")]) (.str "1") =
      .thrown (.validation "An asset issuer must be specified") ∧
    createAssetsPrototype mkRequests (.obj [("unrelated", .str "x")])
        (.str "1") =
      .thrown (.validation "An asset issuer must be specified") ∧
    transferAssets mkRequests (.obj [("unrelated", .str "x")]) (.str "1") =
      .thrown (.validation "An asset issuer must be specified") ∧
    transferAssetsPrototype mkRequests (.obj [("unrelated", .str "x")])
        (.str "1") =
      .thrown (.validation "An asset issuer must be specified") ∧
    transferTargetAssets mkRequests (.obj [("unrelated", .str "x")])
        (.str "1") =
      .thrown (.validation "A recipient must be specified") ∧
    transferTargetAssetsPrototype mkRequests (.obj [("unrelated", .str "x")])
        (.str "1") =
      .thrown (.validation "A recipient must be specified") ∧
    getTransactionById mkRequests (.obj [("unrelated", .str "x")])
        (.str "1") =
      .thrown (.validation "A transactionId must be specified") ∧
    getTransactionFromMempool mkRequests (.obj [("unrelated", .str "x")])
        (.str "1") =
      .thrown (.validation "A transactionId must be specified") ∧
    getBlockById mkRequests (.obj [("unrelated", .str "x")]) (.str "1") =
      .thrown (.validation "A blockId must be specified") := by
  have h := claim_C4_first_field mkRequests (.obj [("unrelated", .str "x")])
    (.str "1") rfl
  obtain ⟨h1, h2, h3, h4, h5, h6, h7, h8, h9, h10, h11, h12, h13, h14, h15,
    h16, h17⟩ := h
  exact ⟨h1 rfl, h2 rfl, h3 rfl, h4 rfl, h5 rfl, h6 rfl, h7 rfl, h8 rfl,
    h9 rfl, h10 rfl, h11 rfl, h12 rfl, h13 rfl, h14 rfl, h15 rfl, h16 rfl,
    h17 rfl⟩

/-- C2: for the eight transfer/create operations, a parameter object whose
`fee` is the literal number `0` (all other required fields truthy) passes
validation and is dispatched, while a parameter object whose `amount` is `0`
(the fields checked before it truthy) is rejected with the validation error
for `amount`. -/
theorem claim_C2_fee_zero_amount_zero (self : Requests) (params id : JsValue)
    (hp : truthy params = true) :
    (truthy (getField params "recipient") = true →
      truthy (getField params "amount") = true →
      getField params "fee" = .num 0 →
      transferPolys self params id =
        .dispatched (lokiRequest ⟨"wallet/", "transferPolys", id⟩
          params self)) ∧
    (truthy (getField params "recipient") = true →
      getField params "amount" = .num 0 →
      transferPolys self params id =
        .thrown (.validation "An amount must be specified")) ∧
    (truthy (getField params "recipient") = true →
      truthy (getField params "amount") = true →
      getField params "fee" = .num 0 →
      transferArbits self params id =
        .dispatched (lokiRequest ⟨"wallet/", "transferArbits", id⟩
          params self)) ∧
    (truthy (getField params "recipient") = true →
      getField params "amount" = .num 0 →
      transferArbits self params id =
        .thrown (.validation "An amount must be specified")) ∧
    (truthy (getField params "issuer") = true →
      truthy (getField params "assetCode") = true →
      truthy (getField params "recipient") = true →
      truthy (getField params "amount") = true →
      getField params "fee" = .num 0 →
      createAssets self params id =
        .dispatched (lokiRequest ⟨"asset/", "createAssets", id⟩
          params self)) ∧
    (truthy (getField params "issuer") = true →
      truthy (getField params "assetCode") = true →
      truthy (getField params "recipient") = true →
      getField params "amount" = .num 0 →
      createAssets self params id =
        .thrown (.validation "An amount must be specified")) ∧
    (truthy (getField params "issuer") = true →
      truthy (getField params "assetCode") = true →
      truthy (getField params "recipient") = true →
      truthy (getField params "amount") = true →
      getField params "fee" = .num 0 →
      createAssetsPrototype self params id =
        .dispatched (lokiRequest ⟨"asset/", "createAssetsPrototype", id⟩
          params self)) ∧
    (truthy (getField params "issuer") = true →
      truthy (getField params "assetCode") = true →
      truthy (getField params "recipient") = true →
      getField params "amount" = .num 0 →
      createAssetsPrototype self params id =
        .thrown (.validation "An amount must be specified")) ∧
    (truthy (getField params "issuer") = true →
      truthy (getField params "assetCode") = true →
      truthy (getField params "recipient") = true →
      truthy (getField params "amount") = true →
      getField params "fee" = .num 0 →
      transferAssets self params id =
        .dispatched (lokiRequest ⟨"asset/", "transferAssets", id⟩
          params self)) ∧
    (truthy (getField params "issuer") = true →
      truthy (getField params "assetCode") = true →
      truthy (getField params "recipient") = true →
      getField params "amount" = .num 0 →
      transferAssets self params id =
        .thrown (.validation "An amount must be specified")) ∧
    (truthy (getField params "issuer") = true →
      truthy (getField params "assetCode") = true →
      truthy (getField params "recipient") = true →
      truthy (getField params "sender") = true →
      truthy (getField params "amount") = true →
      getField params "fee" = .num 0 →
      transferAssetsPrototype self params id =
        .dispatched (lokiRequest ⟨"asset/", "transferAssetsPrototype", id⟩
          params self)) ∧
    (truthy (getField params "issuer") = true →
      truthy (getField params "assetCode") = true →
      truthy (getField params "recipient") = true →
      truthy (getField params "sender") = true →
      getField params "amount" = .num 0 →
      transferAssetsPrototype self params id =
        .thrown (.validation "An amount must be specified")) ∧
    (truthy (getField params "recipient") = true →
      truthy (getField params "assetId") = true →
      truthy (getField params "amount") = true →
      getField params "fee" = .num 0 →
      transferTargetAssets self params id =
        .dispatched (lokiRequest ⟨"asset/", "transferTargetAssets", id⟩
          params self)) ∧
    (truthy (getField params "recipient") = true →
      truthy (getField params "assetId") = true →
      getField params "amount" = .num 0 →
      transferTargetAssets self params id =
        .thrown (.validation "An amount must be specified")) ∧
    (truthy (getField params "recipient") = true →
      truthy (getField params "sender") = true →
      truthy (getField params "assetId") = true →
      truthy (getField params "amount") = true →
      getField params "fee" = .num 0 →
      transferTargetAssetsPrototype self params id =
        .dispatched
          (lokiRequest ⟨"asset/", "transferTargetAssetsPrototype", id⟩
            params self)) ∧
    (truthy (getField params "recipient") = true →
      truthy (getField params "sender") = true →
      truthy (getField params "assetId") = true →
      getField params "amount" = .num 0 →
      transferTargetAssetsPrototype self params id =
        .thrown (.validation "An amount must be specified")) := by
  refine ⟨?_, ?_, ?_, ?_, ?_, ?_, ?_, ?_, ?_, ?_, ?_, ?_, ?_, ?_, ?_, ?_⟩ <;>
    intros <;>
    simp_all [transferPolys, transferArbits, createAssets,
      createAssetsPrototype, transferAssets, transferAssetsPrototype,
      transferTargetAssets, transferTargetAssetsPrototype, truthy,
      strictEqZero]

/-- Witness for C2: one parameter object with every required field truthy
and `fee: 0` dispatches through all eight operations; the same object with
`amount: 0` is rejected by all eight with the amount message. -/
theorem claim_C2_fee_zero_amount_zero_witness :
    transferPolys mkRequests
        (.obj [("issuer", .str "i"), ("assetCode", .str "c"),
          ("recipient", .str "r"), ("sender", .str "s"),
          ("assetId", .str "a"), ("amount", .num 10), ("fee", .num 0)])
        (.str "1") =
      .dispatched (lokiRequest ⟨"wallet/", "transferPolys", .str "1"⟩
        (.obj [("issuer", .str "i"), ("assetCode", .str "c"),
          ("recipient", .str "r"), ("sender", .str "s"),
          ("assetId", .str "a"), ("amount", .num 10), ("fee", .num 0)])
        mkRequests) ∧
    transferArbits mkRequests
        (.obj [("issuer", .str "i"), ("assetCode", .str "c"),
          ("recipient", .str "r"), ("sender", .str "s"),
          ("assetId", .str "a"), ("amount", .num 10), ("fee", .num 0)])
        (.str "1") =
      .dispatched (lokiRequest ⟨"wallet/", "transferArbits", .str "1"⟩
        (.obj [("issuer", .str "i"), ("assetCode", .str "c"),
          ("recipient", .str "r"), ("sender", .str "s"),
          ("assetId", .str "a"), ("amount", .num 10), ("fee", .num 0)])
        mkRequests) ∧
    createAssets mkRequests
        (.obj [("issuer", .str "i"), ("assetCode", .str "c"),
          ("recipient", .str "r"), ("sender", .str "s"),
          ("assetId", .str "a"), ("amount", .num 10), ("fee", .num 0)])
        (.str "1") =
      .dispatched (lokiRequest ⟨"asset/", "createAssets", .str "1"⟩
        (.obj [("issuer", .str "i"), ("assetCode", .str "c"),
          ("recipient", .str "r"), ("sender", .str "s"),
          ("assetId", .str "a"), ("amount", .num 10), ("fee", .num 0)])
        mkRequests) ∧
    createAssetsPrototype mkRequests
        (.obj [("issuer", .str "i"), ("assetCode", .str "c"),
          ("recipient", .str "r"), ("sender", .str "s"),
          ("assetId", .str "a"), ("amount", .num 10), ("fee", .num 0)])
        (.str "1") =
      .dispatched (lokiRequest ⟨"asset/", "createAssetsPrototype", .str "1"⟩
        (.obj [("issuer", .str "i"), ("assetCode", .str "c"),
          ("recipient", .str "r"), ("sender", .str "s"),
          ("assetId", .str "a"), ("amount", .num 10), ("fee", .num 0)])
        mkRequests) ∧
    transferAssets mkRequests
        (.obj [("issuer", .str "i"), ("assetCode", .str "c"),
          ("recipient", .str "r"), ("sender", .str "s"),
          ("assetId", .str "a"), ("amount", .num 10), ("fee", .num 0)])
        (.str "1") =
      .dispatched (lokiRequest ⟨"asset/", "transferAssets", .str "1"⟩
        (.obj [("issuer", .str "i"), ("assetCode", .str "c"),
          ("recipient", .str "r"), ("sender", .str "s"),
          ("assetId", .str "a"), ("amount", .num 10), ("fee", .num 0)])
        mkRequests) ∧
    transferAssetsPrototype mkRequests
        (.obj [("issuer", .str "i"), ("assetCode", .str "c"),
          ("recipient", .str "r"), ("sender", .str "s"),
          ("assetId", .str "a"), ("amount", .num 10), ("fee", .num 0)])
        (.str "1") =
      .dispatched (lokiRequest ⟨"asset/", "transferAssetsPrototype", .str "1"⟩
        (.obj [("issuer", .str "i"), ("assetCode", .str "c"),
          ("recipient", .str "r"), ("sender", .str "s"),
          ("assetId", .str "a"), ("amount", .num 10), ("fee", .num 0)])
        mkRequests) ∧
    transferTargetAssets mkRequests
        (.obj [("issuer", .str "i"), ("assetCode", .str "c"),
          ("recipient", .str "r"), ("sender", .str "s"),
          ("assetId", .str "a"), ("amount", .num 10), ("fee", .num 0)])
        (.str "1") =
      .dispatched (lokiRequest ⟨"asset/", "transferTargetAssets", .str "1"⟩
        (.obj [("issuer", .str "i"), ("assetCode", .str "c"),
          ("recipient", .str "r"), ("sender", .str "s"),
          ("assetId", .str "a"), ("amount", .num 10), ("fee", .num 0)])
        mkRequests) ∧
    transferTargetAssetsPrototype mkRequests
        (.obj [("issuer", .str "i"), ("assetCode", .str "c"),
          ("recipient", .str "r"), ("sender", .str "s"),
          ("assetId", .str "a"), ("amount", .num 10), ("fee", .num 0)])
        (.str "1") =
      .dispatched
        (lokiRequest ⟨"asset/", "transferTargetAssetsPrototype", .str "1"⟩
          (.obj [("issuer", .str "i"), ("assetCode", .str "c"),
            ("recipient", .str "r"), ("sender", .str "s"),
            ("assetId", .str "a"), ("amount", .num 10), ("fee", .num 0)])
          mkRequests) ∧
    transferPolys mkRequests
        (.obj [("issuer", .str "i"), ("assetCode", .str "c"),
          ("recipient", .str "r"), ("sender", .str "s"),
          ("assetId", .str "a"), ("amount", .num 0), ("fee", .num 1)])
        (.str "1") =
      .thrown (.validation "An amount must be specified") ∧
    transferArbits mkRequests
        (.obj [("issuer", .str "i"), ("assetCode", .str "c"),
          ("recipient", .str "r"), ("sender", .str "s"),
          ("assetId", .str "a"), ("amount", .num 0), ("fee", .num 1)])
        (.str "1") =
      .thrown (.validation "An amount must be specified") ∧
    createAssets mkRequests
        (.obj [("issuer", .str "i"), ("assetCode", .str "c"),
          ("recipient", .str "r"), ("sender", .str "s"),
          ("assetId", .str "a"), ("amount", .num 0), ("fee", .num 1)])
        (.str "1") =
      .thrown (.validation "An amount must be specified") ∧
    createAssetsPrototype mkRequests
        (.obj [("issuer", .str "i"), ("assetCode", .str "c"),
          ("recipient", .str "r"), ("sender", .str "s"),
          ("assetId", .str "a"), ("amount", .num 0), ("fee", .num 1)])
        (.str "1") =
      .thrown (.validation "An amount must be specified") ∧
    transferAssets mkRequests
        (.obj [("issuer", .str "i"), ("assetCode", .str "c"),
          ("recipient", .str "r"), ("sender", .str "s"),
          ("assetId", .str "a"), ("amount", .num 0), ("fee", .num 1)])
        (.str "1") =
      .thrown (.validation "An amount must be specified") ∧
    transferAssetsPrototype mkRequests
        (.obj [("issuer", .str "i"), ("assetCode", .str "c"),
          ("recipient", .str "r"), ("sender", .str "s"),
          ("assetId", .str "a"), ("amount", .num 0), ("fee", .num 1)])
        (.str "1") =
      .thrown (.validation "An amount must be specified") ∧
    transferTargetAssets mkRequests
        (.obj [("issuer", .str "i"), ("assetCode", .str "c"),
          ("recipient", .str "r"), ("sender", .str "s"),
          ("assetId", .str "a"), ("amount", .num 0), ("fee", .num 1)])
        (.str "1") =
      .thrown (.validation "An amount must be specified") ∧
    transferTargetAssetsPrototype mkRequests
        (.obj [("issuer", .str "i"), ("assetCode", .str "c"),
          ("recipient", .str "r"), ("sender", .str "s"),
          ("assetId", .str "a"), ("amount", .num 0), ("fee", .num 1)])
        (.str "1") =
      .thrown (.validation "An amount must be specified") := by
  have hF := claim_C2_fee_zero_amount_zero mkRequests
    (.obj [("issuer", .str "i"), ("assetCode", .str "c"),
      ("recipient", .str "r"), ("sender", .str "s"),
      ("assetId", .str "a"), ("amount", .num 10), ("fee", .num 0)])
    (.str "1") rfl
  have hA := claim_C2_fee_zero_amount_zero mkRequests
    (.obj [("issuer", .str "i"), ("assetCode", .str "c"),
      ("recipient", .str "r"), ("sender", .str "s"),
      ("assetId", .str "a"), ("amount", .num 0), ("fee", .num 1)])
    (.str "1") rfl
  obtain ⟨f1, -, f2, -, f3, -, f4, -, f5, -, f6, -, f7, -, f8, -⟩ := hF
  obtain ⟨-, a1, -, a2, -, a3, -, a4, -, a5, -, a6, -, a7, -, a8⟩ := hA
  exact ⟨f1 rfl rfl rfl, f2 rfl rfl rfl, f3 rfl rfl rfl rfl rfl,
    f4 rfl rfl rfl rfl rfl, f5 rfl rfl rfl rfl rfl,
    f6 rfl rfl rfl rfl rfl rfl, f7 rfl rfl rfl rfl,
    f8 rfl rfl rfl rfl rfl, a1 rfl rfl, a2 rfl rfl, a3 rfl rfl rfl rfl,
    a4 rfl rfl rfl rfl, a5 rfl rfl rfl rfl, a6 rfl rfl rfl rfl rfl,
    a7 rfl rfl rfl, a8 rfl rfl rfl rfl⟩

/-- C10: `getBalancesByKey` rejects every parameter object whose
`publicKeys` field is not an array — truthy non-array values included — with
"A list of publicKeys must be specified"; and it is the only operation whose
validation inspects a field's type: one and the same truthy non-array value,
placed in every required field, is rejected by `getBalancesByKey` but passes
the validation of every other parameter-taking operation (while `calcDelay`
never reaches its checks at all). -/
theorem claim_C10_array_check :
    (∀ (self : Requests) (id : JsValue) (fs : List (String × JsValue)),
      isArray (getField (.obj fs) "publicKeys") = false →
      getBalancesByKey self (.obj fs) id =
        .thrown (.validation "A list of publicKeys must be specified")) ∧
    (∀ (self : Requests) (id v : JsValue),
      truthy v = true → isArray v = false →
      getBalancesByKey self (.obj [("publicKeys", v)]) id =
        .thrown (.validation "A list of publicKeys must be specified") ∧
      generateKeyfile self (.obj [("password", v)]) id =
        .dispatched (lokiRequest ⟨"wallet/", "generateKeyfile", id⟩
          (.obj [("password", v)]) self) ∧
      lockKeyfile self (.obj [("publicKey", v), ("password", v)]) id =
        .dispatched (lokiRequest ⟨"wallet/", "lockKeyfile", id⟩
          (.obj [("publicKey", v), ("password", v)]) self) ∧
      unlockKeyfile self (.obj [("publicKey", v), ("password", v)]) id =
        .dispatched (lokiRequest ⟨"wallet/", "unlockKeyfile", id⟩
          (.obj [("publicKey", v), ("password", v)]) self) ∧
      signTransaction self (.obj [("publicKey", v), ("tx", v)]) id =
        .dispatched (lokiRequest ⟨"wallet/", "signTx", id⟩
          (.obj [("publicKey", v), ("tx", v)]) self) ∧
      broadcastTx self (.obj [("tx", v)]) id =
        .dispatched (lokiRequest ⟨"wallet/", "broadcastTx", id⟩
          (.obj [("tx", v)]) self) ∧
      transferPolys self
          (.obj [("recipient", v), ("amount", v), ("fee", v)]) id =
        .dispatched (lokiRequest ⟨"wallet/", "transferPolys", id⟩
          (.obj [("recipient", v), ("amount", v), ("fee", v)]) self) ∧
      transferArbits self
          (.obj [("recipient", v), ("amount", v), ("fee", v)]) id =
        .dispatched (lokiRequest ⟨"wallet/", "transferArbits", id⟩
          (.obj [("recipient", v), ("amount", v), ("fee", v)]) self) ∧
      createAssets self
          (.obj [("issuer", v), ("assetCode", v), ("recipient", v),
            ("amount", v), ("fee", v)]) id =
        .dispatched (lokiRequest ⟨"asset/", "createAssets", id⟩
          (.obj [("issuer", v), ("assetCode", v), ("recipient", v),
            ("amount", v), ("fee", v)]) self) ∧
      createAssetsPrototype self
          (.obj [("issuer", v), ("assetCode", v), ("recipient", v),
            ("amount", v), ("fee", v)]) id =
        .dispatched (lokiRequest ⟨"asset/", "createAssetsPrototype", id⟩
          (.obj [("issuer", v), ("assetCode", v), ("recipient", v),
            ("amount", v), ("fee", v)]) self) ∧
      transferAssets self
          (.obj [("issuer", v), ("assetCode", v), ("recipient", v),
            ("amount", v), ("fee", v)]) id =
        .dispatched (lokiRequest ⟨"asset/", "transferAssets", id⟩
          (.obj [("issuer", v), ("assetCode", v), ("recipient", v),
            ("amount", v), ("fee", v)]) self) ∧
      transferAssetsPrototype self
          (.obj [("issuer", v), ("assetCode", v), ("recipient", v),
            ("sender", v), ("amount", v), ("fee", v)]) id =
        .dispatched (lokiRequest ⟨"asset/", "transferAssetsPrototype", id⟩
          (.obj [("issuer", v), ("assetCode", v), ("recipient", v),
            ("sender", v), ("amount", v), ("fee", v)]) self) ∧
      transferTargetAssets self
          (.obj [("recipient", v), ("assetId", v), ("amount", v),
            ("fee", v)]) id =
        .dispatched (lokiRequest ⟨"asset/", "transferTargetAssets", id⟩
          (.obj [("recipient", v), ("assetId", v), ("amount", v),
            ("fee", v)]) self) ∧
      transferTargetAssetsPrototype self
          (.obj [("recipient", v), ("sender", v), ("assetId", v),
            ("amount", v), ("fee", v)]) id =
        .dispatched
          (lokiRequest ⟨"asset/", "transferTargetAssetsPrototype", id⟩
            (.obj [("recipient", v), ("sender", v), ("assetId", v),
              ("amount", v), ("fee", v)]) self) ∧
      getTransactionById self (.obj [("transactionId", v)]) id =
        .dispatched (lokiRequest ⟨"nodeView/", "transactionById", id⟩
          (.obj [("transactionId", v)]) self) ∧
      getTransactionFromMempool self (.obj [("transactionId", v)]) id =
        .dispatched (lokiRequest ⟨"nodeView/", "transactionFromMempool", id⟩
          (.obj [("transactionId", v)]) self) ∧
      getBlockById self (.obj [("blockId", v)]) id =
        .dispatched (lokiRequest ⟨"nodeView/", "blockById", id⟩
          (.obj [("blockId", v)]) self) ∧
      calcDelay self id = .thrown (.refError "params")) := by
  constructor
  · intro self id fs h
    by_cases ht : truthy (getField (.obj fs) "publicKeys") = true <;>
      simp_all [getBalancesByKey, getProp]
  · intro self id v hv hna
    refine ⟨?_, ?_, ?_, ?_, ?_, ?_, ?_, ?_, ?_, ?_, ?_, ?_, ?_, ?_, ?_, ?_,
      ?_, ?_⟩ <;>
      simp_all [getBalancesByKey, getProp, generateKeyfile, lockKeyfile,
        unlockKeyfile, signTransaction, broadcastTx, transferPolys,
        transferArbits, createAssets, createAssetsPrototype, transferAssets,
        transferAssetsPrototype, transferTargetAssets,
        transferTargetAssetsPrototype, getTransactionById,
        getTransactionFromMempool, getBlockById, calcDelay, getField,
        List.find?, truthy, strictEqZero]

/-- Witness for C10: the truthy non-array string `"pk"`. -/
theorem claim_C10_array_check_witness :
    getBalancesByKey mkRequests (.obj [("publicKeys", .str "pk")])
        (.str "1") =
      .thrown (.validation "A list of publicKeys must be specified") ∧
    broadcastTx mkRequests (.obj [("tx", .str "pk")]) (.str "1") =
      .dispatched (lokiRequest ⟨"wallet/", "broadcastTx", .str "1"⟩
        (.obj [("tx", .str "pk")]) mkRequests) :=
  ⟨(claim_C10_array_check.2 mkRequests (.str "1") (.str "pk") rfl rfl).1,
   (claim_C10_array_check.2 mkRequests (.str "1")
      (.str "pk") rfl rfl).2.2.2.2.2.1⟩
